import Mathlib

/-!
Shallow embedding of the Escape/Grave tap-dance disambiguator from
`keyboards/keychron/k7_max/ansi/rgb/keymaps/nikallass/keymap.c`.

The C code keeps a global `td_tap_t td_state` (a latch `is_double_tapped`
and a 16-bit `timer`), a tap-dance finished callback `esc_grave_finished`,
a reset callback `esc_grave_reset`, and the per-event hook
`process_record_user`.  We model each as a pure function from its inputs
(current timer value `now`, tap count, keycode, pressed flag, modifier
mask) and the pre-state to the post-state together with the list of
emitted side effects (`tap_code`, `tap_code16`, `register_mods`,
`unregister_mods` calls, in order).  The hook additionally returns the
bool the C function returns (true = continue default processing).

Machine integers: the timer is `uint16_t`; `timer_read()` truncates to
16 bits and `timer_elapsed(t)` is wraparound-safe unsigned subtraction,
modelled with explicit `% 65536`.  Modifier masks are `uint8_t`; the C
expression `mods & ~MASK` (with `mods` a `uint8_t`) is modelled as
`mods &&& (0xFF ^^^ MASK)`.
-/

/-- HID keycode of Escape (`KC_ESC`). -/
def KC_ESC : Nat := 0x29

/-- HID keycode of grave/backtick (`KC_GRV`). -/
def KC_GRV : Nat := 0x35

/-- Base of the QMK tap-dance keycode range (`QK_TAP_DANCE`). -/
def QK_TAP_DANCE : Nat := 0x5700

/-- The `TD(i)` macro: tap-dance keycode number `i`. -/
def TD (i : Nat) : Nat := QK_TAP_DANCE + i

/-- Index of the Escape/Grave tap dance in `tap_dance_actions`. -/
def TD_ESC_GRV : Nat := 0

/-- `MOD_MASK_SHIFT`: left and right Shift bits of the modifier byte. -/
def MOD_MASK_SHIFT : Nat := 0x22

/-- `MOD_MASK_ALT`: left and right Alt bits of the modifier byte. -/
def MOD_MASK_ALT : Nat := 0x44

/-- `MOD_MASK_GUI`: left and right GUI bits of the modifier byte. -/
def MOD_MASK_GUI : Nat := 0x88

/-- Modifier bit applied by the `S(kc)` keycode wrapper (left Shift). -/
def MOD_LSFT : Nat := 0x02

/-- Modifier bit applied by the `G(kc)` keycode wrapper (left GUI). -/
def MOD_LGUI : Nat := 0x08

/-- `TAP_TIMEOUT`: timeout period for the tap dance, in milliseconds. -/
def TAP_TIMEOUT : Nat := 500

/-- `timer_read()`: the current tick count truncated to `uint16_t`. -/
def timer_read (now : Nat) : Nat := now % 65536

/-- `timer_elapsed(t)` at tick `now`: wraparound-safe 16-bit difference
`(uint16_t)(timer_read() - t)`. -/
def timer_elapsed (now t : Nat) : Nat :=
  (timer_read now + 65536 - timer_read t) % 65536

/-- The C struct `td_tap_t`: the double-tap latch and the recorded
timer value. -/
structure td_tap_t where
  is_double_tapped : Bool
  timer : Nat
deriving DecidableEq, Repr

/-- One observable side effect emitted by the disambiguator, in the
order the C code performs the calls. `tap_code16 m c` is a
`tap_code16` call whose 16-bit keycode carries modifier bits `m` on
basic keycode `c`. -/
inductive HostCall where
  | tap_code (code : Nat)
  | tap_code16 (mods : Nat) (code : Nat)
  | unregister_mods (mask : Nat)
  | register_mods (mask : Nat)
deriving DecidableEq, Repr

/-- Effect of one emitted action on the host's modifier byte:
`unregister_mods` clears the mask's bits, `register_mods` sets them,
taps leave the held-modifier byte unchanged. -/
def apply_call (mods : Nat) : HostCall → Nat
  | HostCall.unregister_mods m => mods &&& (0xFF ^^^ m)
  | HostCall.register_mods m => mods ||| m
  | HostCall.tap_code _ => mods
  | HostCall.tap_code16 _ _ => mods

/-- Host modifier byte after a trace of emitted actions has run. -/
def mods_after (mods : Nat) (acts : List HostCall) : Nat :=
  acts.foldl apply_call mods

/-- The taps occurring in a trace, each paired with the effective
modifier state at the moment it fires (held modifiers, plus the
keycode-embedded modifiers for a `tap_code16`). -/
def taps_with_mods (mods : Nat) : List HostCall → List (Nat × Nat)
  | [] => []
  | HostCall.tap_code c :: rest => (mods, c) :: taps_with_mods mods rest
  | HostCall.tap_code16 m c :: rest => (mods ||| m, c) :: taps_with_mods mods rest
  | a :: rest => taps_with_mods (apply_call mods a) rest

/-- `esc_grave_finished`: the tap-dance finished callback.  Inputs are
the completed tap count `state->count`, the current tick `now`, and the
global `td_state`; result is the emitted trace and the new `td_state`.
Mirrors keymap.c lines 49-60. -/
def esc_grave_finished (count : Nat) (now : Nat) (td_state : td_tap_t) :
    List HostCall × td_tap_t :=
  if 2 ≤ count then
    ([HostCall.tap_code KC_GRV, HostCall.tap_code KC_GRV],
     { is_double_tapped := true, timer := timer_read now })
  else if count = 1 ∧
      (td_state.is_double_tapped = false ∨
       TAP_TIMEOUT ≤ timer_elapsed now td_state.timer) then
    ([HostCall.tap_code KC_ESC], td_state)
  else
    ([], td_state)

/-- `esc_grave_reset`: the tap-dance reset callback.  Clears the latch
when the timeout has elapsed since the recorded timer.  Mirrors
keymap.c lines 63-67. -/
def esc_grave_reset (now : Nat) (td_state : td_tap_t) : td_tap_t :=
  if TAP_TIMEOUT ≤ timer_elapsed now td_state.timer then
    { td_state with is_double_tapped := false }
  else
    td_state

/-- Modelled from the spec: `process_record_keychron_common` lives in
`keyboards/keychron/common/keychron_common.c`, which is not under the
extracted sources; only its caller is.  Per the spec, events are
"delegated unchanged to the host's common processing, and final
fallthrough returns normal processing to the host's default keycode
handling", so the delegate is modelled as never consuming an event. -/
def process_record_keychron_common (keycode : Nat) (pressed : Bool) : Bool :=
  true

/-- `process_record_user`: the per-event hook.  Inputs are the event's
keycode, pressed flag, the freshly sampled modifier byte `mods`
(`get_mods()`), the current tick `now`, and the global `td_state`.
Result: the bool the C function returns (true = continue default
processing, false = consumed), the emitted trace, and the new
`td_state`.  Mirrors keymap.c lines 73-137. -/
def process_record_user (keycode : Nat) (pressed : Bool) (mods : Nat)
    (now : Nat) (td_state : td_tap_t) : Bool × List HostCall × td_tap_t :=
  if keycode = TD TD_ESC_GRV then
    if mods &&& MOD_MASK_GUI ≠ 0 ∧ mods &&& MOD_MASK_SHIFT ≠ 0 then
      (false,
       if pressed then [HostCall.tap_code16 (MOD_LGUI ||| MOD_LSFT) KC_GRV] else [],
       td_state)
    else if mods &&& MOD_MASK_SHIFT ≠ 0 ∧
        mods &&& (0xFF ^^^ MOD_MASK_SHIFT) = 0 then
      (false,
       if pressed then
         [HostCall.unregister_mods MOD_MASK_SHIFT, HostCall.tap_code KC_GRV,
          HostCall.register_mods mods]
       else [],
       td_state)
    else if mods &&& MOD_MASK_ALT ≠ 0 ∧
        mods &&& (0xFF ^^^ MOD_MASK_ALT) = 0 then
      (false,
       if pressed then
         [HostCall.unregister_mods MOD_MASK_ALT, HostCall.tap_code16 MOD_LSFT KC_GRV,
          HostCall.register_mods mods]
       else [],
       td_state)
    else if mods &&& MOD_MASK_GUI ≠ 0 ∧
        mods &&& (0xFF ^^^ MOD_MASK_GUI) = 0 then
      (false,
       if pressed then [HostCall.tap_code16 MOD_LGUI KC_GRV] else [],
       td_state)
    else if mods = 0 ∧ td_state.is_double_tapped = true ∧
        timer_elapsed now td_state.timer < TAP_TIMEOUT ∧ pressed = true then
      (false, [HostCall.tap_code KC_GRV], { td_state with timer := timer_read now })
    else if process_record_keychron_common keycode pressed = false then
      (false, [], td_state)
    else
      (true, [], td_state)
  else if process_record_keychron_common keycode pressed = false then
    (false, [], td_state)
  else
    (true, [], td_state)

/-- One invocation of any of the disambiguator's three entry points. -/
inductive TdOp where
  | hook (keycode : Nat) (pressed : Bool) (mods : Nat)
  | finished (count : Nat)
  | reset
deriving DecidableEq, Repr

/-- State transition of `td_state` under one invocation at tick `now`. -/
def td_step (op : TdOp) (now : Nat) (td_state : td_tap_t) : td_tap_t :=
  match op with
  | TdOp.hook k p m => (process_record_user k p m now td_state).2.2
  | TdOp.finished c => (esc_grave_finished c now td_state).2
  | TdOp.reset => esc_grave_reset now td_state

/-! ## Helper lemmas -/

/-- If `mods` has no bits in `m1` and every bit of `m2` lies in `m1`,
then `mods` has no bits in `m2`. -/
lemma and_mask_zero_of_subset {mods m1 m2 : Nat} (h : mods &&& m1 = 0)
    (hsub : m1 &&& m2 = m2) : mods &&& m2 = 0 := by
  rw [← hsub, ← Nat.and_assoc, h, Nat.zero_and]

/-! ## Claim theorems -/

/-- Claim C2: for every completed tap sequence of two or more taps, the
finished callback sets the grave-mode latch, emits exactly two Grave
taps, and records the current time. -/
theorem esc_grave_finished_double_tap (count now : Nat) (td_state : td_tap_t)
    (h : 2 ≤ count) :
    esc_grave_finished count now td_state =
      ([HostCall.tap_code KC_GRV, HostCall.tap_code KC_GRV],
       { is_double_tapped := true, timer := timer_read now }) := by
  unfold esc_grave_finished
  rw [if_pos h]

/-- Witness for C2 at count 2, tick 100, initial state. -/
theorem esc_grave_finished_double_tap_witness :
    esc_grave_finished 2 100 ⟨false, 0⟩ =
      ([HostCall.tap_code KC_GRV, HostCall.tap_code KC_GRV], ⟨true, 100⟩) :=
  esc_grave_finished_double_tap 2 100 ⟨false, 0⟩ (by decide)

/-- Claim C1 (amended): a completed single tap while not in grave mode
emits exactly one Escape tap and leaves the disambiguator state
unchanged; in particular the timestamp is NOT updated. -/
theorem esc_grave_finished_single_tap (count now : Nat) (td_state : td_tap_t)
    (h1 : count = 1) (h2 : td_state.is_double_tapped = false) :
    esc_grave_finished count now td_state =
      ([HostCall.tap_code KC_ESC], td_state) := by
  subst h1
  unfold esc_grave_finished
  rw [if_neg (by decide : ¬ (2 ≤ 1)), if_pos ⟨rfl, Or.inl h2⟩]

/-- Witness for C1 (amended) at tick 600, initial state. -/
theorem esc_grave_finished_single_tap_witness :
    esc_grave_finished 1 600 ⟨false, 0⟩ =
      ([HostCall.tap_code KC_ESC], ⟨false, 0⟩) :=
  esc_grave_finished_single_tap 1 600 ⟨false, 0⟩ rfl rfl

/-- Claim C1 counterexample: at tick 600 with state `⟨false, 0⟩`, the
single-tap branch does not record the current time as the new baseline
timestamp: the emitted trace is one Escape but the stored timer stays
0, not 600. -/
theorem esc_grave_finished_single_tap_counterexample :
    ¬ ((esc_grave_finished 1 600 ⟨false, 0⟩).1 = [HostCall.tap_code KC_ESC] ∧
       (esc_grave_finished 1 600 ⟨false, 0⟩).2.timer = timer_read 600) := by
  decide

/-- Claim C3: a press of the bound key while the latch is true, no
modifiers held, and elapsed time strictly below the 500-tick timeout
emits exactly one Grave tap, records the current time (latch stays
true, the window rolls), and is consumed (hook returns false). -/
theorem hook_grave_mode_roll (mods now : Nat) (td_state : td_tap_t)
    (h1 : mods = 0) (h2 : td_state.is_double_tapped = true)
    (h3 : timer_elapsed now td_state.timer < TAP_TIMEOUT) :
    process_record_user (TD TD_ESC_GRV) true mods now td_state =
      (false, [HostCall.tap_code KC_GRV],
       { td_state with timer := timer_read now }) := by
  subst h1
  unfold process_record_user
  rw [if_pos rfl]
  rw [if_neg (by decide : ¬ ((0 : Nat) &&& MOD_MASK_GUI ≠ 0 ∧
      (0 : Nat) &&& MOD_MASK_SHIFT ≠ 0))]
  rw [if_neg (by decide : ¬ ((0 : Nat) &&& MOD_MASK_SHIFT ≠ 0 ∧
      (0 : Nat) &&& (0xFF ^^^ MOD_MASK_SHIFT) = 0))]
  rw [if_neg (by decide : ¬ ((0 : Nat) &&& MOD_MASK_ALT ≠ 0 ∧
      (0 : Nat) &&& (0xFF ^^^ MOD_MASK_ALT) = 0))]
  rw [if_neg (by decide : ¬ ((0 : Nat) &&& MOD_MASK_GUI ≠ 0 ∧
      (0 : Nat) &&& (0xFF ^^^ MOD_MASK_GUI) = 0))]
  rw [if_pos ⟨rfl, h2, h3, rfl⟩]

/-- Witness for C3: latch set at tick 0, next press at tick 100. -/
theorem hook_grave_mode_roll_witness :
    process_record_user (TD TD_ESC_GRV) true 0 100 ⟨true, 0⟩ =
      (false, [HostCall.tap_code KC_GRV], ⟨true, 100⟩) :=
  hook_grave_mode_roll 0 100 ⟨true, 0⟩ rfl rfl (by decide)

/-- Claim C4: after grave mode was entered, a press of the bound key
with no modifiers once the timeout has fully elapsed passes through the
hook untouched, the resulting single-tap finished callback emits
exactly one Escape (not a Grave), and the reset callback clears the
grave-mode latch. -/
theorem stale_grave_latch_press (now : Nat) (td_state : td_tap_t)
    (h1 : td_state.is_double_tapped = true)
    (h2 : TAP_TIMEOUT ≤ timer_elapsed now td_state.timer) :
    process_record_user (TD TD_ESC_GRV) true 0 now td_state =
      (true, [], td_state) ∧
    esc_grave_finished 1 now td_state = ([HostCall.tap_code KC_ESC], td_state) ∧
    (esc_grave_reset now td_state).is_double_tapped = false := by
  refine ⟨?_, ?_, ?_⟩
  · unfold process_record_user process_record_keychron_common
    rw [if_pos rfl]
    rw [if_neg (by decide : ¬ ((0 : Nat) &&& MOD_MASK_GUI ≠ 0 ∧
        (0 : Nat) &&& MOD_MASK_SHIFT ≠ 0))]
    rw [if_neg (by decide : ¬ ((0 : Nat) &&& MOD_MASK_SHIFT ≠ 0 ∧
        (0 : Nat) &&& (0xFF ^^^ MOD_MASK_SHIFT) = 0))]
    rw [if_neg (by decide : ¬ ((0 : Nat) &&& MOD_MASK_ALT ≠ 0 ∧
        (0 : Nat) &&& (0xFF ^^^ MOD_MASK_ALT) = 0))]
    rw [if_neg (by decide : ¬ ((0 : Nat) &&& MOD_MASK_GUI ≠ 0 ∧
        (0 : Nat) &&& (0xFF ^^^ MOD_MASK_GUI) = 0))]
    rw [if_neg (fun h => by
      have := h.2.2.1
      omega)]
    rw [if_neg (by decide : ¬ (true = false))]
  · unfold esc_grave_finished
    rw [if_neg (by decide : ¬ (2 ≤ 1)), if_pos ⟨rfl, Or.inr h2⟩]
  · unfold esc_grave_reset
    rw [if_pos h2]

/-- Witness for C4: latch set at tick 0, next press at tick 500. -/
theorem stale_grave_latch_press_witness :
    process_record_user (TD TD_ESC_GRV) true 0 500 ⟨true, 0⟩ =
      (true, [], ⟨true, 0⟩) ∧
    esc_grave_finished 1 500 ⟨true, 0⟩ = ([HostCall.tap_code KC_ESC], ⟨true, 0⟩) ∧
    (esc_grave_reset 500 ⟨true, 0⟩).is_double_tapped = false :=
  stale_grave_latch_press 500 ⟨true, 0⟩ rfl (by decide)

/-- Claim C5: full characterization of the grave-mode latch across the
three disambiguator entry points: the per-event hook never changes it,
the finished callback sets it exactly on a tap count of two or more,
and the reset callback clears it exactly when the timeout has elapsed
since the recorded timestamp; no other transition exists. -/
theorem td_latch_transitions (op : TdOp) (now : Nat) (td_state : td_tap_t) :
    (td_step op now td_state).is_double_tapped =
      match op with
      | TdOp.hook _ _ _ => td_state.is_double_tapped
      | TdOp.finished c =>
          if 2 ≤ c then true else td_state.is_double_tapped
      | TdOp.reset =>
          if TAP_TIMEOUT ≤ timer_elapsed now td_state.timer then false
          else td_state.is_double_tapped := by
  cases op with
  | hook k p m =>
      show (process_record_user k p m now td_state).2.2.is_double_tapped =
        td_state.is_double_tapped
      unfold process_record_user
      repeat' split
      all_goals rfl
  | finished c =>
      show (esc_grave_finished c now td_state).2.is_double_tapped =
        (if 2 ≤ c then true else td_state.is_double_tapped)
      unfold esc_grave_finished
      by_cases h : 2 ≤ c
      · rw [if_pos h, if_pos h]
      · rw [if_neg h, if_neg h]
        split
        all_goals rfl
  | reset =>
      show (esc_grave_reset now td_state).is_double_tapped =
        (if TAP_TIMEOUT ≤ timer_elapsed now td_state.timer then false
         else td_state.is_double_tapped)
      unfold esc_grave_reset
      by_cases h : TAP_TIMEOUT ≤ timer_elapsed now td_state.timer
      · rw [if_pos h, if_pos h]
      · rw [if_neg h, if_neg h]

/-- Claim C6 counterexample: a press of the bound key with no modifiers
held and the latch clear is NOT consumed: the hook returns true so the
tap-dance machinery can process it, refuting "for every event of the
bound key the hook returns false". -/
theorem hook_bound_key_consumed_counterexample :
    ¬ ((process_record_user (TD TD_ESC_GRV) true 0 0 ⟨false, 0⟩).1 = false) := by
  decide

/-- Claim C6 (amended): the hook consumes an event of the bound key
exactly when one of the four modifier branches or the grave-mode
rolling-window branch matches; all other bound-key events (for example
a plain press with the latch clear) pass through to the tap-dance
machinery. -/
theorem hook_bound_key_consumes_iff (pressed : Bool) (mods now : Nat)
    (td_state : td_tap_t) :
    (process_record_user (TD TD_ESC_GRV) pressed mods now td_state).1 = false ↔
      ((mods &&& MOD_MASK_GUI ≠ 0 ∧ mods &&& MOD_MASK_SHIFT ≠ 0) ∨
       (mods &&& MOD_MASK_SHIFT ≠ 0 ∧ mods &&& (0xFF ^^^ MOD_MASK_SHIFT) = 0) ∨
       (mods &&& MOD_MASK_ALT ≠ 0 ∧ mods &&& (0xFF ^^^ MOD_MASK_ALT) = 0) ∨
       (mods &&& MOD_MASK_GUI ≠ 0 ∧ mods &&& (0xFF ^^^ MOD_MASK_GUI) = 0) ∨
       (mods = 0 ∧ td_state.is_double_tapped = true ∧
        timer_elapsed now td_state.timer < TAP_TIMEOUT ∧ pressed = true)) := by
  unfold process_record_user process_record_keychron_common
  rw [if_pos rfl]
  repeat' split
  all_goals simp_all

/-- Claim C7: every event whose keycode is not the bound Escape/Grave
key is delegated to the (spec-modelled) common Keychron processing,
returns true, emits nothing, and leaves the disambiguator state
unchanged. -/
theorem hook_other_keycode (keycode : Nat) (pressed : Bool) (mods now : Nat)
    (td_state : td_tap_t) (h : keycode ≠ TD TD_ESC_GRV) :
    process_record_user keycode pressed mods now td_state =
      (true, [], td_state) := by
  unfold process_record_user process_record_keychron_common
  rw [if_neg h]
  rw [if_neg (by decide : ¬ (true = false))]

/-- Witness for C7 at the keycode of the letter A. -/
theorem hook_other_keycode_witness :
    process_record_user 0x04 true 0 0 ⟨false, 0⟩ = (true, [], ⟨false, 0⟩) :=
  hook_other_keycode 0x04 true 0 0 ⟨false, 0⟩ (by decide)

/-- Claim C8: a press of the bound key with exactly the Shift bits set
(no other modifier bits) is consumed and emits one plain Grave tap:
Shift is unregistered before the tap, so the effective modifier byte at
the tap is 0, and after the trace runs the modifier byte equals the one
observed at entry; the disambiguator state is unchanged. -/
theorem hook_shift_only_press (mods now : Nat) (td_state : td_tap_t)
    (h1 : mods &&& MOD_MASK_SHIFT ≠ 0)
    (h2 : mods &&& (0xFF ^^^ MOD_MASK_SHIFT) = 0) :
    process_record_user (TD TD_ESC_GRV) true mods now td_state =
      (false, [HostCall.unregister_mods MOD_MASK_SHIFT, HostCall.tap_code KC_GRV,
               HostCall.register_mods mods], td_state) ∧
    taps_with_mods mods
        [HostCall.unregister_mods MOD_MASK_SHIFT, HostCall.tap_code KC_GRV,
         HostCall.register_mods mods] = [(0, KC_GRV)] ∧
    mods_after mods
        [HostCall.unregister_mods MOD_MASK_SHIFT, HostCall.tap_code KC_GRV,
         HostCall.register_mods mods] = mods := by
  have hgui : mods &&& MOD_MASK_GUI = 0 :=
    and_mask_zero_of_subset h2 (by decide)
  refine ⟨?_, ?_, ?_⟩
  · unfold process_record_user
    rw [if_pos rfl]
    rw [if_neg (fun h => h.1 hgui)]
    rw [if_pos ⟨h1, h2⟩, if_pos rfl]
  · simp [taps_with_mods, apply_call, h2]
  · simp [mods_after, apply_call, h2]

/-- Witness for C8 with left Shift held. -/
theorem hook_shift_only_press_witness :
    process_record_user (TD TD_ESC_GRV) true 0x02 0 ⟨false, 0⟩ =
      (false, [HostCall.unregister_mods MOD_MASK_SHIFT, HostCall.tap_code KC_GRV,
               HostCall.register_mods 0x02], ⟨false, 0⟩) ∧
    taps_with_mods 0x02
        [HostCall.unregister_mods MOD_MASK_SHIFT, HostCall.tap_code KC_GRV,
         HostCall.register_mods 0x02] = [(0, KC_GRV)] ∧
    mods_after 0x02
        [HostCall.unregister_mods MOD_MASK_SHIFT, HostCall.tap_code KC_GRV,
         HostCall.register_mods 0x02] = 0x02 :=
  hook_shift_only_press 0x02 0 ⟨false, 0⟩ (by decide) (by decide)

/-- Claim C9: a press of the bound key with both a GUI bit and a Shift
bit set (any other bits allowed) is consumed, emits exactly one
GUI+Shift+Grave tap and no Escape of any kind, and leaves the
disambiguator state unchanged. -/
theorem hook_gui_shift_press (mods now : Nat) (td_state : td_tap_t)
    (h1 : mods &&& MOD_MASK_GUI ≠ 0) (h2 : mods &&& MOD_MASK_SHIFT ≠ 0) :
    process_record_user (TD TD_ESC_GRV) true mods now td_state =
      (false, [HostCall.tap_code16 (MOD_LGUI ||| MOD_LSFT) KC_GRV], td_state) ∧
    (∀ call ∈ [HostCall.tap_code16 (MOD_LGUI ||| MOD_LSFT) KC_GRV],
      call ≠ HostCall.tap_code KC_ESC ∧
      ∀ m, call ≠ HostCall.tap_code16 m KC_ESC) := by
  refine ⟨?_, ?_⟩
  · unfold process_record_user
    rw [if_pos rfl]
    rw [if_pos ⟨h1, h2⟩, if_pos rfl]
  · intro call hc
    simp only [List.mem_singleton] at hc
    subst hc
    refine ⟨by simp, fun m => ?_⟩
    simp [KC_ESC, KC_GRV]

/-- Witness for C9 with left GUI and left Shift held. -/
theorem hook_gui_shift_press_witness :
    process_record_user (TD TD_ESC_GRV) true 0x0A 0 ⟨false, 0⟩ =
      (false, [HostCall.tap_code16 (MOD_LGUI ||| MOD_LSFT) KC_GRV], ⟨false, 0⟩) ∧
    (∀ call ∈ [HostCall.tap_code16 (MOD_LGUI ||| MOD_LSFT) KC_GRV],
      call ≠ HostCall.tap_code KC_ESC ∧
      ∀ m, call ≠ HostCall.tap_code16 m KC_ESC) :=
  hook_gui_shift_press 0x0A 0 ⟨false, 0⟩ (by decide) (by decide)

/-- Claim C10: a release event of the bound key never emits any
synthetic tap, under every modifier mask and every disambiguator
state: the emitted trace is empty. -/
theorem hook_bound_release_no_calls (mods now : Nat) (td_state : td_tap_t) :
    (process_record_user (TD TD_ESC_GRV) false mods now td_state).2.1 = [] := by
  unfold process_record_user process_record_keychron_common
  rw [if_pos rfl]
  repeat' split
  all_goals simp_all
